import Mathlib

/-!
# Passport status checker bot: the tracking state machine of `cmd/main.go`

A shallow embedding of the two pieces of `cmd/main.go` that carry state:

* `checkStatus`, the reconciliation pass run every 30 minutes, and
* the body of the update loop in `main` (button callbacks, commands, plain
  text messages).

The database table of `models.Request` rows is a list of `Request` values.
Every gorm call of the source is an explicit `StoreOp`; every `bot.Send` is a
`Msg` in the list of sent messages; every call of the `request` package is a
`Call`. The external status service is a function argument, so a theorem
quantifies over everything the service may answer.
-/

namespace KmidChecker

/-! ## Data model -/

/-- The row type `models.Request`, with the fields `cmd/main.go` reads and
writes. `ID` is the primary key (a UUID in the source, an ordered identifier
here). `NumberChecksToday` is a Go integer; the only arithmetic on
it is `+ 1` below 48, so no wrap-around can occur and it is an `Int`. -/
structure Request where
  ID : Nat
  UserID : Int
  ApplicationNumber : String
  CityID : Int
  PassportType : String
  NumberChecksToday : Int
  Status : String
deriving DecidableEq, Repr

/-- The Go zero value of `models.Request`: what `var request models.Request`
holds when the lookup finds no row. -/
def Request.zero : Request :=
  { ID := 0, UserID := 0, ApplicationNumber := "", CityID := 0,
    PassportType := "", NumberChecksToday := 0, Status := "" }

/-- The column written by one `db.Model(&request).Update(column, value)`. -/
inductive Column where
  | application_number (value : String)
  | status (value : String)
  | number_checks_today (value : Int)
  | city_id (value : Int)
deriving DecidableEq, Repr

/-- One mutating statement sent to the database. -/
inductive StoreOp where
  | create (request : Request)
  | update (id : Nat) (column : Column)
  | delete (id : Nat)
deriving DecidableEq, Repr

/-- The text of an outbound message, by the message id handed to the
localizer together with its template data. `empty` is a message whose `Text`
is the empty string. -/
inductive Text where
  | application_status_changed (status : String)
  | application_status_not_changed (status : String)
  | please_provide_application_number
  | your_application_is_being_checked (applicationNumber status : String)
  | please_select_passport_validity_period
  | your_application_was_deleted (applicationNumber : String)
  | no_active_application
  | unknown_command
  | empty
  | error_getting_status
  | no_saved_application
  | your_document_is_ready
  | application_saved (status : String)
  | please_specify_the_city (status : String)
  | the_city_was_not_found (status : String)
deriving DecidableEq, Repr

/-- One `bot.Send(tgbotapi.NewMessage(chatID, text))`. -/
structure Msg where
  chatID : Int
  text : Text
deriving DecidableEq, Repr

/-- One call of the `request` package (the status source adapter). -/
inductive Call where
  | GetStatusFiveYears (applicationNumber : String)
  | GetCityIdByName (name : String)
deriving DecidableEq, Repr

/-- What one piece of code did to the outside world: the statements it sent
to the database, the messages it sent, the adapter calls it made, each in
program order. -/
structure Effects where
  ops : List StoreOp := []
  sent : List Msg := []
  calls : List Call := []
deriving DecidableEq, Repr

/-- Effects of running one piece of code after another. -/
def Effects.append (a b : Effects) : Effects :=
  { ops := a.ops ++ b.ops, sent := a.sent ++ b.sent, calls := a.calls ++ b.calls }

instance : Append Effects := ⟨Effects.append⟩

/-! ## The database -/

/-- The effect of `Update(column, value)` on one row. -/
def Column.set (c : Column) (r : Request) : Request :=
  match c with
  | .application_number v => { r with ApplicationNumber := v }
  | .status v => { r with Status := v }
  | .number_checks_today v => { r with NumberChecksToday := v }
  | .city_id v => { r with CityID := v }

/-- Run one statement: `Create` adds the row, `Update` and `Delete` act on the
rows whose primary key is the given one. -/
def applyOp (db : List Request) (op : StoreOp) : List Request :=
  match op with
  | .create r => db ++ [r]
  | .update id c => db.map (fun r => if r.ID = id then c.set r else r)
  | .delete id => db.filter (fun r => r.ID ≠ id)

/-- Run statements in order. -/
def applyOps (db : List Request) (ops : List StoreOp) : List Request :=
  ops.foldl applyOp db

/-- The lookup `db.Where("user_id = ?", chatID).First(&request)`: the matching
row with the least primary key, and the zero value when there is none (the
`ErrRecordNotFound` of the source is ignored there, leaving `request` zero). -/
def First (db : List Request) (chatID : Int) : Request :=
  match db.filter (fun r => r.UserID = chatID) with
  | [] => Request.zero
  | r :: rs => rs.foldl (fun best x => if x.ID < best.ID then x else best) r

/-! ## `checkStatus` -/

/-- The guard at the top of the loop body of `checkStatus`: `true` when the
body reaches a `continue` before any work is done. -/
def skipped (request : Request) : Bool :=
  if request.UserID = 0 then true
  else if request.PassportType = "5" then
    if request.ApplicationNumber = "0" then true else false
  else if request.PassportType = "10" then
    if request.CityID = 0 ∨ request.ApplicationNumber = "0" then true else false
  else true

/-- The body of the `for _, request := range requests` loop of `checkStatus`.
`GetStatusFiveYears` returns the status text and the error (`none` is `nil`).
A non-nil error is only logged: the comparison below it runs all the same. -/
def checkStatusStep (GetStatusFiveYears : String → String × Option String)
    (request : Request) : Effects :=
  if skipped request then {}
  else if request.PassportType = "5" then
    let status := (GetStatusFiveYears request.ApplicationNumber).1
    let called : Effects := { calls := [.GetStatusFiveYears request.ApplicationNumber] }
    if request.Status ≠ status then
      called ++
        { sent := [⟨request.UserID, .application_status_changed status⟩],
          ops := [.update request.ID (.status status)] }
    else if request.NumberChecksToday ≥ 48 then
      called ++
        { sent := [⟨request.UserID, .application_status_not_changed status⟩],
          ops := [.update request.ID (.number_checks_today 0)] }
    else
      called ++
        { ops := [.update request.ID (.number_checks_today (request.NumberChecksToday + 1))] }
  else
    -- passports valid for 10 years: the source has an empty block here
    {}

/-- Everything one pass of `checkStatus` does: the loop runs over the rows
read by `db.Find(&requests)` at the start of the pass. -/
def checkStatusEffects (GetStatusFiveYears : String → String × Option String)
    (requests : List Request) : Effects :=
  requests.foldl (fun acc request => acc ++ checkStatusStep GetStatusFiveYears request) {}

/-- One pass of `checkStatus` over the database: the table afterwards. -/
def checkStatus (GetStatusFiveYears : String → String × Option String)
    (db : List Request) : List Request :=
  applyOps db (checkStatusEffects GetStatusFiveYears db).ops

/-! ## The update loop of `main` -/

/-- An inbound `tgbotapi.Update`, by the case the loop distinguishes. -/
inductive Update where
  | callbackQuery (chatID : Int) (data : String)
  | command (chatID : Int) (command : String)
  | message (chatID : Int) (text : String)
  | other
deriving DecidableEq, Repr

/-- What the environment supplies while one update is handled: the answers of
the status service and the value of `uuid.New()`. -/
structure Env where
  GetStatusFiveYears : String → String × Option String
  GetCityIdByName : String → Int × Option String
  newUUID : Nat

/-- The status text for an unknown application number. -/
def notSavedText : String := "Заявление с таким номером не было сохранено на сайте."

/-- The status text of a finished passport. -/
def readyText : String := "Статус заявления: паспорт готов."

/-- The `update.CallbackQuery != nil` branch. -/
def handleCallback (newUUID : Nat) (chatID : Int) (buttonData : String) : Effects :=
  if buttonData = "5" then
    { ops := [.create { ID := newUUID, UserID := chatID, ApplicationNumber := "0",
                        CityID := 0, PassportType := "5", NumberChecksToday := 0,
                        Status := "" }],
      sent := [⟨chatID, .please_provide_application_number⟩] }
  else if buttonData = "10" then
    { ops := [.create { ID := newUUID, UserID := chatID, ApplicationNumber := "0",
                        CityID := 0, PassportType := "10", NumberChecksToday := 0,
                        Status := "" }],
      sent := [⟨chatID, .please_provide_application_number⟩] }
  else {}

/-- The `update.Message.IsCommand()` branch. The message `msg` created at the
top is sent at the bottom in every case; in the branches that send a message
of their own its text is still empty. -/
def handleCommand (db : List Request) (chatID : Int) (command : String) : Effects :=
  let request := First db chatID
  if command = "start" then
    if request.UserID ≠ 0 then
      { sent := [⟨chatID, .your_application_is_being_checked request.ApplicationNumber
                    request.Status⟩,
                 ⟨chatID, .empty⟩] }
    else
      { sent := [⟨chatID, .please_select_passport_validity_period⟩] }
  else if command = "remove" then
    if request.UserID ≠ 0 then
      { sent := [⟨chatID, .your_application_was_deleted request.ApplicationNumber⟩,
                 ⟨chatID, .empty⟩],
        ops := [.delete request.ID] }
    else
      { sent := [⟨chatID, .no_active_application⟩, ⟨chatID, .empty⟩] }
  else
    { sent := [⟨chatID, .unknown_command⟩] }

/-- The five-year part of the plain-text branch: the text is taken as the
application number and the status is fetched at once. -/
def handleMessageFive (GetStatusFiveYears : String → String × Option String)
    (request : Request) (chatID : Int) (text : String) : Effects :=
  if request.PassportType = "5" ∧ request.ApplicationNumber = "0" then
    let status := (GetStatusFiveYears text).1
    let err := (GetStatusFiveYears text).2
    let called : Effects := { calls := [.GetStatusFiveYears text] }
    let onError : Effects :=
      if err ≠ none then { sent := [⟨chatID, .error_getting_status⟩] } else {}
    let onStatus : Effects :=
      if status = notSavedText then
        { sent := [⟨chatID, .no_saved_application⟩] }
      else if status = readyText then
        { sent := [⟨chatID, .your_document_is_ready⟩], ops := [.delete request.ID] }
      else
        { ops := [.update request.ID (.application_number text),
                  .update request.ID (.status status),
                  .update request.ID (.number_checks_today 1)],
          sent := [⟨chatID, .application_saved status⟩] }
    called ++ onError ++ onStatus
  else {}

/-- The ten-year part of the plain-text branch: first the number, then the
city; no status is fetched. -/
def handleMessageTen (GetCityIdByName : String → Int × Option String)
    (request : Request) (chatID : Int) (text : String) : Effects :=
  if request.PassportType = "10" then
    if request.ApplicationNumber = "0" then
      { ops := [.update request.ID (.application_number text)],
        sent := [⟨chatID, .please_specify_the_city request.Status⟩] }
    else if request.CityID = 0 then
      let cityID := (GetCityIdByName text).1
      let err := (GetCityIdByName text).2
      let called : Effects := { calls := [.GetCityIdByName text] }
      if err ≠ none then
        called ++ { sent := [⟨chatID, .the_city_was_not_found request.Status⟩] }
      else
        called ++
          { ops := [.update request.ID (.city_id cityID)],
            sent := [⟨chatID, .application_saved request.Status⟩] }
    else {}
  else {}

/-- The plain-text branch: look the sender up, then the five-year part, then
the ten-year part (the two test `PassportType`, which no update changes). -/
def handleMessage (env : Env) (db : List Request) (chatID : Int) (text : String) : Effects :=
  let request := First db chatID
  handleMessageFive env.GetStatusFiveYears request chatID text ++
    handleMessageTen env.GetCityIdByName request chatID text

/-- The body of `for update := range updates`. -/
def handleUpdate (env : Env) (db : List Request) (update : Update) : Effects :=
  match update with
  | .callbackQuery chatID data => handleCallback env.newUUID chatID data
  | .command chatID command => handleCommand db chatID command
  | .message chatID text => handleMessage env db chatID text
  | .other => {}

/-! ## Runs of the whole program -/

/-- One thing that happens to the database: an update is handled, or the
scheduler fires `checkStatus`. Each carries what the outside world answers
at that moment. -/
inductive Step where
  | update (env : Env) (update : Update)
  | tick (GetStatusFiveYears : String → String × Option String)

/-- The database after one step. -/
def step (db : List Request) (s : Step) : List Request :=
  match s with
  | .update env u => applyOps db (handleUpdate env db u).ops
  | .tick g => checkStatus g db

/-- The database after a sequence of steps. -/
def run (steps : List Step) (db : List Request) : List Request :=
  steps.foldl step db

/-- The rows of one user. -/
def rowsOf (db : List Request) (userID : Int) : List Request :=
  db.filter (fun r => r.UserID = userID)

/-- The effect of one statement on one row that stays in the table. -/
def applyOpRow (x : Request) (op : StoreOp) : Request :=
  match op with
  | .update id c => if x.ID = id then c.set x else x
  | _ => x

/-! ## Predicates and examples used in the statements -/

/-- A five-year application in progress, owned by user 7, that has been
checked `n` times. -/
def trackedRow (n : Int) : Request :=
  { ID := 1, UserID := 7, ApplicationNumber := "A123", CityID := 0, PassportType := "5",
    NumberChecksToday := n, Status := "В обработке" }

/-- A status service that gives one answer to every question. -/
def answers (status : String) (err : Option String) : String → String × Option String :=
  fun _ => (status, err)

/-- The rows `checkStatus` passes over, written as the conditions of the data
model: no owner, no application number yet, a ten-year application without a
city, or a passport type that is neither "5" nor "10". -/
def ineligible (r : Request) : Prop :=
  r.UserID = 0 ∨ r.ApplicationNumber = "0" ∨ (r.PassportType = "10" ∧ r.CityID = 0) ∨
    (r.PassportType ≠ "5" ∧ r.PassportType ≠ "10")

instance (r : Request) : Decidable (ineligible r) := by
  unfold ineligible; infer_instance

/-- A row for which the sender has not given the application number yet. -/
def freshRow (id : Nat) (userID : Int) (passportType : String) : Request :=
  { ID := id, UserID := userID, ApplicationNumber := "0", CityID := 0,
    PassportType := passportType, NumberChecksToday := 0, Status := "" }

/-- The environment of one update: the status service answers `g`, no city
is known, and `uuid.New()` gives `uuid`. -/
def envWith (g : String → String × Option String) (uuid : Nat) : Env :=
  { GetStatusFiveYears := g, GetCityIdByName := fun _ => (0, some "city not found"),
    newUUID := uuid }

/-- The counter of a row is between 0 and 48. -/
def counterInRange (r : Request) : Prop :=
  0 ≤ r.NumberChecksToday ∧ r.NumberChecksToday ≤ 48

/-- A statement that cannot take a counter out of its bounds. -/
def opInRange (op : StoreOp) : Prop :=
  match op with
  | .create r => counterInRange r
  | .update _ (.number_checks_today v) => 0 ≤ v ∧ v ≤ 48
  | _ => True

/-! ## Basic facts -/

@[simp] theorem Effects.ops_append (a b : Effects) : (a ++ b).ops = a.ops ++ b.ops := rfl

@[simp] theorem Effects.sent_append (a b : Effects) : (a ++ b).sent = a.sent ++ b.sent := rfl

@[simp] theorem Effects.calls_append (a b : Effects) : (a ++ b).calls = a.calls ++ b.calls := rfl

theorem Effects.ext_lists {a b : Effects} (h₁ : a.ops = b.ops) (h₂ : a.sent = b.sent)
    (h₃ : a.calls = b.calls) : a = b := by
  cases a; cases b; simp_all

theorem Effects.nil_append (a : Effects) : ({} : Effects) ++ a = a :=
  Effects.ext_lists (by simp) (by simp) (by simp)

theorem Effects.append_assoc (a b c : Effects) : a ++ b ++ c = a ++ (b ++ c) :=
  Effects.ext_lists (by simp) (by simp) (by simp)

theorem effects_foldl (f : Request → Effects) (l : List Request) (init : Effects) :
    l.foldl (fun acc x => acc ++ f x) init = init ++ l.foldl (fun acc x => acc ++ f x) {} := by
  induction l generalizing init with
  | nil => exact Effects.ext_lists (by simp) (by simp) (by simp)
  | cons a t ih =>
    simp only [List.foldl_cons]
    rw [ih (init ++ f a), ih ({} ++ f a), Effects.nil_append, Effects.append_assoc]

theorem checkStatusEffects_nil (g : String → String × Option String) :
    checkStatusEffects g [] = {} := rfl

theorem checkStatusEffects_cons (g : String → String × Option String) (a : Request)
    (l : List Request) :
    checkStatusEffects g (a :: l) = checkStatusStep g a ++ checkStatusEffects g l := by
  unfold checkStatusEffects
  rw [List.foldl_cons, effects_foldl, Effects.nil_append]

theorem applyOps_append (db : List Request) (a b : List StoreOp) :
    applyOps db (a ++ b) = applyOps (applyOps db a) b := by
  simp [applyOps, List.foldl_append]

/-! ## The loop body of `checkStatus`, case by case -/

theorem skipped_eq_false_of_five {r : Request} (hu : r.UserID ≠ 0) (h5 : r.PassportType = "5")
    (ha : r.ApplicationNumber ≠ "0") : skipped r = false := by
  simp [skipped, hu, h5, ha]

theorem checkStatusStep_skipped (g : String → String × Option String) {r : Request}
    (h : skipped r = true) : checkStatusStep g r = {} := by
  simp [checkStatusStep, h]

theorem checkStatusStep_changed (g : String → String × Option String) {r : Request}
    (hs : skipped r = false) (h5 : r.PassportType = "5")
    (hne : r.Status ≠ (g r.ApplicationNumber).1) :
    checkStatusStep g r =
      { calls := [.GetStatusFiveYears r.ApplicationNumber],
        sent := [⟨r.UserID, .application_status_changed (g r.ApplicationNumber).1⟩],
        ops := [.update r.ID (.status (g r.ApplicationNumber).1)] } := by
  simp only [checkStatusStep, hs, h5]
  simp only [ne_eq, hne, not_false_eq_true, if_true]
  exact Effects.ext_lists (by simp) (by simp) (by simp)

theorem checkStatusStep_stale (g : String → String × Option String) {r : Request}
    (hs : skipped r = false) (h5 : r.PassportType = "5")
    (heq : r.Status = (g r.ApplicationNumber).1) (hn : 48 ≤ r.NumberChecksToday) :
    checkStatusStep g r =
      { calls := [.GetStatusFiveYears r.ApplicationNumber],
        sent := [⟨r.UserID, .application_status_not_changed (g r.ApplicationNumber).1⟩],
        ops := [.update r.ID (.number_checks_today 0)] } := by
  simp only [checkStatusStep, hs, h5]
  simp only [ne_eq, heq, not_true_eq_false, if_false, ge_iff_le, hn, if_true]
  exact Effects.ext_lists (by simp) (by simp) (by simp)

theorem checkStatusStep_counted (g : String → String × Option String) {r : Request}
    (hs : skipped r = false) (h5 : r.PassportType = "5")
    (heq : r.Status = (g r.ApplicationNumber).1) (hn : r.NumberChecksToday < 48) :
    checkStatusStep g r =
      { calls := [.GetStatusFiveYears r.ApplicationNumber],
        sent := [],
        ops := [.update r.ID (.number_checks_today (r.NumberChecksToday + 1))] } := by
  have hn' : ¬ (48 ≤ r.NumberChecksToday) := not_le.mpr hn
  simp only [checkStatusStep, hs, h5]
  simp only [ne_eq, heq, not_true_eq_false, if_false, ge_iff_le, hn']
  exact Effects.ext_lists (by simp) (by simp) (by simp)

theorem checkStatusStep_not_five (g : String → String × Option String) {r : Request}
    (h5 : r.PassportType ≠ "5") : checkStatusStep g r = {} := by
  simp [checkStatusStep, h5]

theorem checkStatusStep_ops_target (g : String → String × Option String) (r : Request) :
    ∀ op ∈ (checkStatusStep g r).ops, ∃ c, op = .update r.ID c := by
  intro op hop
  by_cases hs : skipped r = true
  · rw [checkStatusStep_skipped g hs] at hop
    simp at hop
  · have hs' : skipped r = false := by simpa using hs
    by_cases h5 : r.PassportType = "5"
    · by_cases hne : r.Status = (g r.ApplicationNumber).1
      · rcases lt_or_ge r.NumberChecksToday 48 with hn | hn
        · rw [checkStatusStep_counted g hs' h5 hne hn] at hop
          simp at hop
          exact ⟨_, hop⟩
        · rw [checkStatusStep_stale g hs' h5 hne hn] at hop
          simp at hop
          exact ⟨_, hop⟩
      · rw [checkStatusStep_changed g hs' h5 hne] at hop
        simp at hop
        exact ⟨_, hop⟩
    · rw [checkStatusStep_not_five g h5] at hop
      simp at hop

/-! ## A pass of `checkStatus`, row by row -/

theorem Column.set_ID (c : Column) (r : Request) : (c.set r).ID = r.ID := by
  cases c <;> rfl

theorem Column.set_UserID (c : Column) (r : Request) : (c.set r).UserID = r.UserID := by
  cases c <;> rfl

theorem applyOpRow_ID (x : Request) (op : StoreOp) : (applyOpRow x op).ID = x.ID := by
  cases op with
  | create r => rfl
  | delete id => rfl
  | update id c =>
    simp only [applyOpRow]
    split
    · exact Column.set_ID c x
    · rfl

theorem foldl_applyOpRow_ID (ops : List StoreOp) (x : Request) :
    (ops.foldl applyOpRow x).ID = x.ID := by
  induction ops generalizing x with
  | nil => rfl
  | cons op t ih => rw [List.foldl_cons, ih, applyOpRow_ID]

theorem applyOps_of_updates (ops : List StoreOp)
    (h : ∀ op ∈ ops, ∃ id c, op = .update id c) (db : List Request) :
    applyOps db ops = db.map (fun x => ops.foldl applyOpRow x) := by
  induction ops generalizing db with
  | nil => simp [applyOps]
  | cons op t ih =>
    obtain ⟨id, c, rfl⟩ := h _ (List.mem_cons_self _ _)
    have ht : ∀ op ∈ t, ∃ id c, op = .update id c :=
      fun op hop => h op (List.mem_cons_of_mem _ hop)
    have := ih ht (applyOp db (.update id c))
    simp only [applyOps, List.foldl_cons] at this ⊢
    rw [this]
    simp [applyOp, applyOpRow, List.map_map, Function.comp_def]

theorem foldl_applyOpRow_other (ops : List StoreOp) (x : Request) (id : Nat)
    (h : ∀ op ∈ ops, ∃ c, op = .update id c) (hid : id ≠ x.ID) :
    ops.foldl applyOpRow x = x := by
  induction ops with
  | nil => rfl
  | cons op t ih =>
    obtain ⟨c, rfl⟩ := h _ (List.mem_cons_self _ _)
    have hx : applyOpRow x (.update id c) = x := by
      simp [applyOpRow, Ne.symm hid]
    rw [List.foldl_cons, hx]
    exact ih (fun op hop => h op (List.mem_cons_of_mem _ hop))

theorem checkStatusEffects_ops_updates (g : String → String × Option String)
    (l : List Request) :
    ∀ op ∈ (checkStatusEffects g l).ops, ∃ id c, op = .update id c := by
  induction l with
  | nil => intro op hop; simp [checkStatusEffects_nil] at hop
  | cons a t ih =>
    intro op hop
    rw [checkStatusEffects_cons, Effects.ops_append, List.mem_append] at hop
    rcases hop with hop | hop
    · obtain ⟨c, hc⟩ := checkStatusStep_ops_target g a op hop
      exact ⟨_, c, hc⟩
    · exact ih op hop

theorem foldl_effects_untouched (g : String → String × Option String) (l : List Request)
    (x : Request) (h : ∀ y ∈ l, y.ID ≠ x.ID) :
    (checkStatusEffects g l).ops.foldl applyOpRow x = x := by
  induction l with
  | nil => simp [checkStatusEffects_nil]
  | cons a t ih =>
    rw [checkStatusEffects_cons, Effects.ops_append, List.foldl_append,
      foldl_applyOpRow_other _ x a.ID (checkStatusStep_ops_target g a)
        (h a (List.mem_cons_self _ _))]
    exact ih (fun y hy => h y (List.mem_cons_of_mem _ hy))

theorem foldl_effects_own (g : String → String × Option String) (l : List Request)
    (hnd : (l.map Request.ID).Nodup) (r : Request) (hr : r ∈ l) :
    (checkStatusEffects g l).ops.foldl applyOpRow r =
      (checkStatusStep g r).ops.foldl applyOpRow r := by
  induction l with
  | nil => cases hr
  | cons a t ih =>
    rw [List.map_cons, List.nodup_cons] at hnd
    rw [checkStatusEffects_cons, Effects.ops_append, List.foldl_append]
    rcases List.mem_cons.mp hr with rfl | hrt
    · apply foldl_effects_untouched
      intro y hy hyid
      apply hnd.1
      rw [foldl_applyOpRow_ID] at hyid
      rw [← hyid]
      exact List.mem_map_of_mem _ hy
    · have hne : a.ID ≠ r.ID := by
        intro h
        apply hnd.1
        rw [h]
        exact List.mem_map_of_mem _ hrt
      rw [foldl_applyOpRow_other _ r a.ID (checkStatusStep_ops_target g a) hne]
      exact ih hnd.2 hrt

/-- With pairwise distinct primary keys, a pass of `checkStatus` changes each
row by the statements of its own loop iteration and by nothing else. -/
theorem checkStatus_rows (g : String → String × Option String) (db : List Request)
    (hnd : (db.map Request.ID).Nodup) :
    checkStatus g db = db.map (fun x => (checkStatusStep g x).ops.foldl applyOpRow x) := by
  unfold checkStatus
  rw [applyOps_of_updates _ (checkStatusEffects_ops_updates g db)]
  apply List.map_congr_left
  intro r hr
  exact foldl_effects_own g db hnd r hr

theorem mem_checkStatus (g : String → String × Option String) (db : List Request)
    (hnd : (db.map Request.ID).Nodup) (r : Request) (hr : r ∈ db) :
    (checkStatusStep g r).ops.foldl applyOpRow r ∈ checkStatus g db := by
  rw [checkStatus_rows g db hnd]
  exact List.mem_map_of_mem _ hr

theorem eq_of_mem_checkStatus (g : String → String × Option String) (db : List Request)
    (hnd : (db.map Request.ID).Nodup) (r : Request) (hr : r ∈ db) (r' : Request)
    (hr' : r' ∈ checkStatus g db) (hid : r'.ID = r.ID) :
    r' = (checkStatusStep g r).ops.foldl applyOpRow r := by
  rw [checkStatus_rows g db hnd] at hr'
  obtain ⟨x, hx, rfl⟩ := List.mem_map.mp hr'
  rw [foldl_applyOpRow_ID] at hid
  have hxr : x = r := by
    have := List.inj_on_of_nodup_map hnd hx hr hid
    exact this
  rw [hxr]

/-! ## The claims about `checkStatus` -/

/-- C1, counterexample: a tracked five-year row with 47 checks whose poll
returns the stored status gets no notification, and its counter becomes 48,
not 0. -/
theorem checkStatus_at_47_counts_on :
    (trackedRow 47).UserID ≠ 0 ∧ (trackedRow 47).PassportType = "5" ∧
    (trackedRow 47).ApplicationNumber ≠ "0" ∧
    (answers "В обработке" none (trackedRow 47).ApplicationNumber).1 = (trackedRow 47).Status ∧
    (checkStatusStep (answers "В обработке" none) (trackedRow 47)).sent = [] ∧
    checkStatus (answers "В обработке" none) [trackedRow 47] = [trackedRow 48] := by
  decide

/-- C1, as the code has it: for an eligible five-year row with counter `n`
whose poll returns the stored status, if `n < 48` the pass sends nothing and
stores `n + 1`, and if `48 ≤ n` (so at `n = 48`) it sends exactly one
"status unchanged" notification and stores 0. -/
theorem checkStatus_unchanged_poll (g : String → String × Option String)
    (db : List Request) (r : Request) (hnd : (db.map Request.ID).Nodup) (hr : r ∈ db)
    (hu : r.UserID ≠ 0) (h5 : r.PassportType = "5") (ha : r.ApplicationNumber ≠ "0")
    (heq : (g r.ApplicationNumber).1 = r.Status) :
    (r.NumberChecksToday < 48 →
      (checkStatusStep g r).sent = [] ∧
      (checkStatusStep g r).ops =
        [.update r.ID (.number_checks_today (r.NumberChecksToday + 1))] ∧
      { r with NumberChecksToday := r.NumberChecksToday + 1 } ∈ checkStatus g db) ∧
    (48 ≤ r.NumberChecksToday →
      (checkStatusStep g r).sent = [⟨r.UserID, .application_status_not_changed r.Status⟩] ∧
      (checkStatusStep g r).ops = [.update r.ID (.number_checks_today 0)] ∧
      { r with NumberChecksToday := 0 } ∈ checkStatus g db) := by
  have hs := skipped_eq_false_of_five hu h5 ha
  have hmem := mem_checkStatus g db hnd r hr
  constructor
  · intro hn
    rw [checkStatusStep_counted g hs h5 heq.symm hn] at hmem ⊢
    refine ⟨rfl, rfl, ?_⟩
    simpa [applyOpRow, Column.set] using hmem
  · intro hn
    rw [checkStatusStep_stale g hs h5 heq.symm hn] at hmem ⊢
    refine ⟨by rw [heq], rfl, ?_⟩
    simpa [applyOpRow, Column.set] using hmem

/-- C1, witness: the theorem at the rows with 46 and with 48 checks. -/
theorem checkStatus_unchanged_poll_witness :
    ((checkStatusStep (answers "В обработке" none) (trackedRow 46)).sent = [] ∧
      trackedRow 47 ∈ checkStatus (answers "В обработке" none) [trackedRow 46]) ∧
    ((checkStatusStep (answers "В обработке" none) (trackedRow 48)).sent =
        [⟨7, .application_status_not_changed "В обработке"⟩] ∧
      trackedRow 0 ∈ checkStatus (answers "В обработке" none) [trackedRow 48]) := by
  have h46 := (checkStatus_unchanged_poll (answers "В обработке" none) [trackedRow 46]
    (trackedRow 46) (by decide) (by decide) (by decide) (by decide) (by decide)
    (by decide)).1 (by decide)
  have h48 := (checkStatus_unchanged_poll (answers "В обработке" none) [trackedRow 48]
    (trackedRow 48) (by decide) (by decide) (by decide) (by decide) (by decide)
    (by decide)).2 (by decide)
  exact ⟨⟨h46.1, h46.2.2⟩, ⟨h48.1, h48.2.2⟩⟩

/-- C2: for an eligible five-year row, whatever its counter, a poll that
returns a status other than the stored one sends exactly one "status changed"
notification carrying the new status, sends the one statement that writes the
new status, and leaves the row in the table with that status. -/
theorem checkStatus_changed_poll (g : String → String × Option String)
    (db : List Request) (r : Request) (hnd : (db.map Request.ID).Nodup) (hr : r ∈ db)
    (hu : r.UserID ≠ 0) (h5 : r.PassportType = "5") (ha : r.ApplicationNumber ≠ "0")
    (hne : (g r.ApplicationNumber).1 ≠ r.Status) :
    (checkStatusStep g r).sent =
      [⟨r.UserID, .application_status_changed (g r.ApplicationNumber).1⟩] ∧
    (checkStatusStep g r).ops = [.update r.ID (.status (g r.ApplicationNumber).1)] ∧
    { r with Status := (g r.ApplicationNumber).1 } ∈ checkStatus g db ∧
    ∀ r' ∈ checkStatus g db, r'.ID = r.ID → r'.Status = (g r.ApplicationNumber).1 := by
  have hs := skipped_eq_false_of_five hu h5 ha
  have hmem := mem_checkStatus g db hnd r hr
  have hstep := checkStatusStep_changed g hs h5 (Ne.symm hne)
  refine ⟨by rw [hstep], by rw [hstep], ?_, ?_⟩
  · rw [hstep] at hmem
    simpa [applyOpRow, Column.set] using hmem
  · intro r' hr' hid
    have := eq_of_mem_checkStatus g db hnd r hr r' hr' hid
    rw [hstep] at this
    rw [this]
    simp [applyOpRow, Column.set]

/-- C2, witness: the theorem at a row with 5 checks whose status moves on. -/
theorem checkStatus_changed_poll_witness :
    (checkStatusStep (answers "Паспорт отправлен" none) (trackedRow 5)).sent =
      [⟨7, .application_status_changed "Паспорт отправлен"⟩] ∧
    { trackedRow 5 with Status := "Паспорт отправлен" } ∈
      checkStatus (answers "Паспорт отправлен" none) [trackedRow 5] := by
  have h := checkStatus_changed_poll (answers "Паспорт отправлен" none) [trackedRow 5]
    (trackedRow 5) (by decide) (by decide) (by decide) (by decide) (by decide) (by decide)
  exact ⟨h.1, h.2.2.1⟩

/-- C3, the code at a failing poll: a tracked row with 48 checks whose poll
returns a new status. The pass sends the "status changed" notification and
writes the new status, but the counter is still 48 afterwards, not 0; so the
next pass, whose poll returns that same new status, sends the "status has
not changed in the last 24 hours" notification, one pass after the change. -/
theorem checkStatus_changed_poll_leaves_counter :
    (answers "Паспорт готов к выдаче" none (trackedRow 48).ApplicationNumber).1 ≠
      (trackedRow 48).Status ∧
    (checkStatusStep (answers "Паспорт готов к выдаче" none) (trackedRow 48)).sent =
      [⟨7, .application_status_changed "Паспорт готов к выдаче"⟩] ∧
    (checkStatusStep (answers "Паспорт готов к выдаче" none) (trackedRow 48)).ops =
      [.update 1 (.status "Паспорт готов к выдаче")] ∧
    checkStatus (answers "Паспорт готов к выдаче" none) [trackedRow 48] =
      [{ trackedRow 48 with Status := "Паспорт готов к выдаче" }] ∧
    (checkStatus (answers "Паспорт готов к выдаче" none) [trackedRow 48]).map
      Request.NumberChecksToday = [48] ∧
    (checkStatusEffects (answers "Паспорт готов к выдаче" none)
        (checkStatus (answers "Паспорт готов к выдаче" none) [trackedRow 48])).sent =
      [⟨7, .application_status_not_changed "Паспорт готов к выдаче"⟩] ∧
    run [.tick (answers "Паспорт готов к выдаче" none),
         .tick (answers "Паспорт готов к выдаче" none)] [trackedRow 48] =
      [{ trackedRow 48 with Status := "Паспорт готов к выдаче", NumberChecksToday := 0 }] := by
  decide

/-- C6, the code at a failing poll: the service answers an empty status
together with an error for a tracked row. The pass sends a "status changed"
notification carrying the empty status and overwrites the stored status; and
when the text that comes with the error equals the stored status, the pass
counts the failed poll as a check. -/
theorem checkStatus_failed_poll_is_not_skipped :
    (answers "" (some "timeout") (trackedRow 3).ApplicationNumber).2 ≠ none ∧
    (checkStatusStep (answers "" (some "timeout")) (trackedRow 3)).sent =
      [⟨7, .application_status_changed ""⟩] ∧
    checkStatus (answers "" (some "timeout")) [trackedRow 3] =
      [{ trackedRow 3 with Status := "" }] ∧
    checkStatus (answers "В обработке" (some "timeout")) [trackedRow 3] = [trackedRow 4] := by
  decide

theorem skipped_of_ineligible {r : Request} (h : ineligible r) : skipped r = true := by
  unfold skipped
  rcases h with h | h | ⟨h10, hc⟩ | ⟨h5, h10⟩
  · simp [h]
  · by_cases hu : r.UserID = 0
    · simp [hu]
    · by_cases h5 : r.PassportType = "5"
      · simp [hu, h5, h]
      · by_cases h10 : r.PassportType = "10"
        · simp [hu, h10, h]
        · simp [hu, h5, h10]
  · by_cases hu : r.UserID = 0
    · simp [hu]
    · simp [hu, h10, hc]
  · simp [h5, h10]

theorem checkStatusEffects_without (g : String → String × Option String) (r : Request)
    (hstep : checkStatusStep g r = {}) (l : List Request) :
    checkStatusEffects g l = checkStatusEffects g (l.filter (fun x => x ≠ r)) := by
  induction l with
  | nil => rfl
  | cons a t ih =>
    by_cases har : a = r
    · subst har
      rw [checkStatusEffects_cons, hstep, Effects.nil_append, ih]
      simp
    · have : (a :: t).filter (fun x => x ≠ r) = a :: t.filter (fun x => x ≠ r) := by
        simp [har]
      rw [this, checkStatusEffects_cons, checkStatusEffects_cons, ih]

/-- C10: a row that is not eligible (no owner, application number "0", a
ten-year row without a city, or a passport type other than "5" and "10")
makes the pass do nothing: no adapter call, no statement, no notification. It
is in the table unchanged after the pass, and the whole pass does exactly
what it would do if the row were not in the table. -/
theorem checkStatus_passes_over_ineligible (g : String → String × Option String)
    (db : List Request) (r : Request) (hnd : (db.map Request.ID).Nodup) (hr : r ∈ db)
    (hin : ineligible r) :
    checkStatusStep g r = { ops := [], sent := [], calls := [] } ∧
    r ∈ checkStatus g db ∧
    checkStatusEffects g db = checkStatusEffects g (db.filter (fun x => x ≠ r)) := by
  have hstep : checkStatusStep g r = {} := checkStatusStep_skipped g (skipped_of_ineligible hin)
  refine ⟨hstep, ?_, checkStatusEffects_without g r hstep db⟩
  have hmem := mem_checkStatus g db hnd r hr
  rw [hstep] at hmem
  exact hmem

/-- C10, witness: a table with a row still waiting for its number next to a
tracked row whose status moves on. -/
theorem checkStatus_passes_over_ineligible_witness :
    ineligible (freshRow 2 8 "5") ∧
    checkStatusStep (answers "Паспорт отправлен" none) (freshRow 2 8 "5") =
      { ops := [], sent := [], calls := [] } ∧
    freshRow 2 8 "5" ∈
      checkStatus (answers "Паспорт отправлен" none) [trackedRow 5, freshRow 2 8 "5"] := by
  have h := checkStatus_passes_over_ineligible (answers "Паспорт отправлен" none)
    [trackedRow 5, freshRow 2 8 "5"] (freshRow 2 8 "5") (by decide) (by decide) (by decide)
  exact ⟨by decide, h.1, h.2.1⟩

/-! ## The update loop, case by case -/

theorem Effects.append_nil (a : Effects) : a ++ ({} : Effects) = a :=
  Effects.ext_lists (by simp) (by simp) (by simp)

theorem First_of_rowsOf {db : List Request} {chatID : Int} {r : Request}
    (h : rowsOf db chatID = [r]) : First db chatID = r := by
  unfold rowsOf at h
  unfold First
  rw [h]
  rfl

theorem handleMessageTen_of_not_ten (c : String → Int × Option String) {request : Request}
    (chatID : Int) (text : String) (h : request.PassportType ≠ "10") :
    handleMessageTen c request chatID text = {} := by
  simp [handleMessageTen, h]

theorem handleMessageFive_of_not_five (g : String → String × Option String)
    {request : Request} (chatID : Int) (text : String) (h : request.PassportType ≠ "5") :
    handleMessageFive g request chatID text = {} := by
  simp [handleMessageFive, h]

theorem handleMessage_five (env : Env) (db : List Request) (chatID : Int) (text : String)
    (h5 : (First db chatID).PassportType = "5") :
    handleMessage env db chatID text =
      handleMessageFive env.GetStatusFiveYears (First db chatID) chatID text := by
  have h10 : (First db chatID).PassportType ≠ "10" := by rw [h5]; decide
  unfold handleMessage
  simp only []
  rw [handleMessageTen_of_not_ten _ _ _ h10, Effects.append_nil]

theorem handleMessage_not_five (env : Env) (db : List Request) (chatID : Int) (text : String)
    (h5 : (First db chatID).PassportType ≠ "5") :
    handleMessage env db chatID text =
      handleMessageTen env.GetCityIdByName (First db chatID) chatID text := by
  unfold handleMessage
  simp only []
  rw [handleMessageFive_of_not_five _ _ _ h5, Effects.nil_append]

theorem handleMessageFive_ready (g : String → String × Option String) {request : Request}
    (chatID : Int) (text : String) (h5 : request.PassportType = "5")
    (ha : request.ApplicationNumber = "0") (hready : (g text).1 = readyText) :
    handleMessageFive g request chatID text =
      { calls := [.GetStatusFiveYears text],
        sent := (if (g text).2 = none then [] else [⟨chatID, .error_getting_status⟩]) ++
          [⟨chatID, .your_document_is_ready⟩],
        ops := [.delete request.ID] } := by
  have hne : readyText ≠ notSavedText := by decide
  simp only [handleMessageFive, h5, ha, hready, and_self, if_true, hne, if_false]
  by_cases herr : (g text).2 = none
  · simp only [herr, ne_eq, not_true_eq_false, if_false, if_true]
    exact Effects.ext_lists (by simp) (by simp) (by simp)
  · simp only [herr, ne_eq, not_false_eq_true, if_true, if_false]
    exact Effects.ext_lists (by simp) (by simp) (by simp)

theorem handleMessageFive_enrol (g : String → String × Option String) {request : Request}
    (chatID : Int) (text : String) (h5 : request.PassportType = "5")
    (ha : request.ApplicationNumber = "0") (h1 : (g text).1 ≠ notSavedText)
    (h2 : (g text).1 ≠ readyText) :
    handleMessageFive g request chatID text =
      { calls := [.GetStatusFiveYears text],
        sent := (if (g text).2 = none then [] else [⟨chatID, .error_getting_status⟩]) ++
          [⟨chatID, .application_saved (g text).1⟩],
        ops := [.update request.ID (.application_number text),
                .update request.ID (.status (g text).1),
                .update request.ID (.number_checks_today 1)] } := by
  simp only [handleMessageFive, h5, ha, and_self, if_true, h1, h2, if_false]
  by_cases herr : (g text).2 = none
  · simp only [herr, ne_eq, not_true_eq_false, if_false, if_true]
    exact Effects.ext_lists (by simp) (by simp) (by simp)
  · simp only [herr, ne_eq, not_false_eq_true, if_true, if_false]
    exact Effects.ext_lists (by simp) (by simp) (by simp)

theorem handleMessageFive_notSaved (g : String → String × Option String) {request : Request}
    (chatID : Int) (text : String) (h5 : request.PassportType = "5")
    (ha : request.ApplicationNumber = "0") (h1 : (g text).1 = notSavedText) :
    handleMessageFive g request chatID text =
      { calls := [.GetStatusFiveYears text],
        sent := (if (g text).2 = none then [] else [⟨chatID, .error_getting_status⟩]) ++
          [⟨chatID, .no_saved_application⟩],
        ops := [] } := by
  simp only [handleMessageFive, h5, ha, and_self, if_true, h1]
  by_cases herr : (g text).2 = none
  · simp only [herr, ne_eq, not_true_eq_false, if_false, if_true]
    exact Effects.ext_lists (by simp) (by simp) (by simp)
  · simp only [herr, ne_eq, not_false_eq_true, if_true, if_false]
    exact Effects.ext_lists (by simp) (by simp) (by simp)

theorem handleMessageFive_number_given (g : String → String × Option String)
    {request : Request} (chatID : Int) (text : String)
    (ha : request.ApplicationNumber ≠ "0") :
    handleMessageFive g request chatID text = {} := by
  simp [handleMessageFive, ha]

theorem handleMessageTen_bounds (c : String → Int × Option String) (request : Request)
    (chatID : Int) (text : String) :
    (handleMessageTen c request chatID text).ops.length ≤ 1 ∧
    (handleMessageTen c request chatID text).sent.length ≤ 1 := by
  unfold handleMessageTen
  by_cases h10 : request.PassportType = "10"
  · by_cases ha : request.ApplicationNumber = "0"
    · simp [h10, ha]
    · by_cases hc : request.CityID = 0
      · by_cases herr : (c text).2 = none
        · simp [h10, ha, hc, herr]
        · simp [h10, ha, hc, herr]
      · simp [h10, ha, hc]
  · simp [h10]

theorem handleCommand_bounds (db : List Request) (chatID : Int) (command : String) :
    (handleCommand db chatID command).ops.length ≤ 1 ∧
    ((handleCommand db chatID command).sent.filter (fun m => m.text ≠ .empty)).length ≤ 1 := by
  unfold handleCommand
  by_cases hs : command = "start"
  · by_cases hu : (First db chatID).UserID = 0
    · simp [hs, hu]
    · simp [hs, hu]
  · by_cases hr : command = "remove"
    · by_cases hu : (First db chatID).UserID = 0
      · simp [hs, hr, hu]
      · simp [hs, hr, hu]
    · simp [hs, hr]

theorem handleCallback_bounds (newUUID : Nat) (chatID : Int) (data : String) :
    (handleCallback newUUID chatID data).ops.length ≤ 1 ∧
    (handleCallback newUUID chatID data).sent.length ≤ 1 := by
  unfold handleCallback
  by_cases h5 : data = "5"
  · simp [h5]
  · by_cases h10 : data = "10"
    · simp [h5, h10]
    · simp [h5, h10]

theorem filter_length_le_one {l : List Msg} (p : Msg → Bool) (h : l.length ≤ 1) :
    (l.filter p).length ≤ 1 :=
  le_trans (List.length_filter_le p l) h

/-! ## The claims about the update loop -/

/-- C4, the code at a failing run: user 7 sends `start` and presses the
five-year button twice. The second callback creates a second row for the
same user. -/
theorem second_callback_creates_second_row :
    run [.update (envWith (answers "" none) 1) (.command 7 "start"),
         .update (envWith (answers "" none) 1) (.callbackQuery 7 "5"),
         .update (envWith (answers "" none) 2) (.callbackQuery 7 "5")] [] =
      [freshRow 1 7 "5", freshRow 2 7 "5"] ∧
    (rowsOf (run [.update (envWith (answers "" none) 1) (.command 7 "start"),
         .update (envWith (answers "" none) 1) (.callbackQuery 7 "5"),
         .update (envWith (answers "" none) 2) (.callbackQuery 7 "5")] []) 7).length = 2 := by
  decide

/-- C7, the code at a failing intake: the five-year row of the sender has
no number yet and the service answers an empty status with an error. The
handler sends the error reply and then the enrolment confirmation, and it
writes the number, the empty status and the counter 1 to the row. -/
theorem failed_intake_mutates_row :
    (answers "" (some "timeout") "A123").2 ≠ none ∧
    (handleUpdate (envWith (answers "" (some "timeout")) 9) [freshRow 1 7 "5"]
        (.message 7 "A123")).sent =
      [⟨7, .error_getting_status⟩, ⟨7, .application_saved ""⟩] ∧
    (handleUpdate (envWith (answers "" (some "timeout")) 9) [freshRow 1 7 "5"]
        (.message 7 "A123")).ops =
      [.update 1 (.application_number "A123"), .update 1 (.status ""),
       .update 1 (.number_checks_today 1)] ∧
    step [freshRow 1 7 "5"]
        (.update (envWith (answers "" (some "timeout")) 9) (.message 7 "A123")) =
      [{ freshRow 1 7 "5" with ApplicationNumber := "A123", NumberChecksToday := 1 }] := by
  decide

/-- C8: when the only row of the sender is a five-year row without a number and
the service answers the "ready" text, the handler sends the "already ready"
message (and nothing else when the call gave no error), sends the single
statement that deletes the row, writes no column, and afterwards the table is
the old one without that row and holds no row of the sender. -/
theorem ready_intake_deletes_row (env : Env) (db : List Request) (chatID : Int)
    (text : String) (r : Request) (hrows : rowsOf db chatID = [r])
    (h5 : r.PassportType = "5") (ha : r.ApplicationNumber = "0")
    (hready : (env.GetStatusFiveYears text).1 = readyText) :
    ⟨chatID, .your_document_is_ready⟩ ∈ (handleUpdate env db (.message chatID text)).sent ∧
    ((env.GetStatusFiveYears text).2 = none →
      (handleUpdate env db (.message chatID text)).sent =
        [⟨chatID, .your_document_is_ready⟩]) ∧
    (handleUpdate env db (.message chatID text)).ops = [.delete r.ID] ∧
    step db (.update env (.message chatID text)) = db.filter (fun x => x.ID ≠ r.ID) ∧
    rowsOf (step db (.update env (.message chatID text))) chatID = [] := by
  have hF := First_of_rowsOf hrows
  have hh : handleUpdate env db (.message chatID text) =
      handleMessageFive env.GetStatusFiveYears r chatID text := by
    show handleMessage env db chatID text = _
    rw [handleMessage_five env db chatID text (by rw [hF]; exact h5), hF]
  have hstep : step db (.update env (.message chatID text)) =
      db.filter (fun x => x.ID ≠ r.ID) := by
    show applyOps db (handleUpdate env db (.message chatID text)).ops = _
    rw [hh, handleMessageFive_ready _ _ _ h5 ha hready]
    simp [applyOps, applyOp]
  rw [hstep, hh, handleMessageFive_ready _ _ _ h5 ha hready]
  refine ⟨by simp, ?_, rfl, rfl, ?_⟩
  · intro herr
    simp [herr]
  · rw [List.eq_nil_iff_forall_not_mem]
    intro x hx
    unfold rowsOf at hx hrows
    rw [List.mem_filter, List.mem_filter] at hx
    have hxr : x ∈ db.filter (fun r => decide (r.UserID = chatID)) :=
      List.mem_filter.mpr ⟨hx.1.1, hx.2⟩
    rw [hrows, List.mem_singleton] at hxr
    have := hx.1.2
    simp [hxr] at this

/-- C8, witness: user 7 has picked the five-year passport and sends "A123",
for which the service answers the "ready" text; user 8 has a row too. -/
theorem ready_intake_deletes_row_witness :
    (handleUpdate (envWith (answers readyText none) 9) [freshRow 1 7 "5", freshRow 2 8 "10"]
        (.message 7 "A123")).sent = [⟨7, .your_document_is_ready⟩] ∧
    (handleUpdate (envWith (answers readyText none) 9) [freshRow 1 7 "5", freshRow 2 8 "10"]
        (.message 7 "A123")).ops = [.delete 1] ∧
    rowsOf (step [freshRow 1 7 "5", freshRow 2 8 "10"]
        (.update (envWith (answers readyText none) 9) (.message 7 "A123"))) 7 = [] := by
  have h := ready_intake_deletes_row (envWith (answers readyText none) 9)
    [freshRow 1 7 "5", freshRow 2 8 "10"] 7 "A123" (freshRow 1 7 "5") (by decide)
    (by decide) (by decide) (by decide)
  exact ⟨h.2.1 (by decide), h.2.2.1, h.2.2.2.2⟩

/-- C9, counterexample: a successful five-year enrolment sends three
statements to the database. -/
theorem enrolment_sends_three_statements :
    (handleUpdate (envWith (answers "В обработке" none) 9) [freshRow 1 7 "5"]
        (.message 7 "A123")).ops =
      [.update 1 (.application_number "A123"), .update 1 (.status "В обработке"),
       .update 1 (.number_checks_today 1)] ∧
    ¬ ((handleUpdate (envWith (answers "В обработке" none) 9) [freshRow 1 7 "5"]
        (.message 7 "A123")).ops.length ≤ 1) := by
  decide

/-- C9, as the code has it: when the status lookup of a plain-text message
gives no error, handling an update sends at most one message with a text, and
sends at most one statement to the database, but for the five-year enrolment,
which sends exactly three column updates, all for the row of the sender. -/
theorem handleUpdate_effects_bounded (env : Env) (db : List Request) (update : Update)
    (hok : ∀ chatID text, update = .message chatID text →
      (env.GetStatusFiveYears text).2 = none) :
    ((handleUpdate env db update).sent.filter (fun m => m.text ≠ .empty)).length ≤ 1 ∧
    ((handleUpdate env db update).ops.length ≤ 1 ∨
      ∃ chatID text, update = .message chatID text ∧
        (handleUpdate env db update).ops =
          [.update (First db chatID).ID (.application_number text),
           .update (First db chatID).ID (.status (env.GetStatusFiveYears text).1),
           .update (First db chatID).ID (.number_checks_today 1)]) := by
  cases update with
  | callbackQuery chatID data =>
    have h := handleCallback_bounds env.newUUID chatID data
    exact ⟨filter_length_le_one _ h.2, Or.inl h.1⟩
  | command chatID command =>
    have h := handleCommand_bounds db chatID command
    exact ⟨h.2, Or.inl h.1⟩
  | other => exact ⟨by simp [handleUpdate], Or.inl (by simp [handleUpdate])⟩
  | message chatID text =>
    have herr := hok chatID text rfl
    show ((handleMessage env db chatID text).sent.filter _).length ≤ 1 ∧
      ((handleMessage env db chatID text).ops.length ≤ 1 ∨
        ∃ c t, Update.message chatID text = .message c t ∧
          (handleMessage env db chatID text).ops = _)
    by_cases h5 : (First db chatID).PassportType = "5"
    · rw [handleMessage_five env db chatID text h5]
      by_cases ha : (First db chatID).ApplicationNumber = "0"
      · by_cases h1 : (env.GetStatusFiveYears text).1 = notSavedText
        · rw [handleMessageFive_notSaved _ _ _ h5 ha h1]
          exact ⟨by simp [herr], Or.inl (by simp)⟩
        · by_cases h2 : (env.GetStatusFiveYears text).1 = readyText
          · rw [handleMessageFive_ready _ _ _ h5 ha h2]
            exact ⟨by simp [herr], Or.inl (by simp)⟩
          · rw [handleMessageFive_enrol _ _ _ h5 ha h1 h2]
            exact ⟨by simp [herr], Or.inr ⟨chatID, text, rfl, rfl⟩⟩
      · rw [handleMessageFive_number_given _ _ _ ha]
        exact ⟨by simp, Or.inl (by simp)⟩
    · rw [handleMessage_not_five env db chatID text h5]
      have h := handleMessageTen_bounds env.GetCityIdByName (First db chatID) chatID text
      exact ⟨filter_length_le_one _ h.2, Or.inl h.1⟩

/-- C9, witness: the theorem at the enrolment of the counterexample and at a
`start` command of a user who has a row. -/
theorem handleUpdate_effects_bounded_witness :
    ((handleUpdate (envWith (answers "В обработке" none) 9) [freshRow 1 7 "5"]
        (.message 7 "A123")).sent.filter (fun m => m.text ≠ .empty)).length ≤ 1 ∧
    ((handleUpdate (envWith (answers "В обработке" none) 9) [freshRow 1 7 "5"]
        (.command 7 "start")).sent.filter (fun m => m.text ≠ .empty)).length ≤ 1 :=
  ⟨(handleUpdate_effects_bounded (envWith (answers "В обработке" none) 9)
      [freshRow 1 7 "5"] (.message 7 "A123") (fun _ _ _ => rfl)).1,
   (handleUpdate_effects_bounded (envWith (answers "В обработке" none) 9)
      [freshRow 1 7 "5"] (.command 7 "start") (fun _ _ _ => rfl)).1⟩

/-! ## The counter stays within its bounds -/

theorem applyOp_inRange (db : List Request) (op : StoreOp)
    (hdb : ∀ r ∈ db, counterInRange r) (hop : opInRange op) :
    ∀ r ∈ applyOp db op, counterInRange r := by
  intro r hr
  cases op with
  | create x =>
    simp only [applyOp, List.mem_append, List.mem_singleton] at hr
    rcases hr with hr | rfl
    · exact hdb r hr
    · exact hop
  | delete id =>
    simp only [applyOp, List.mem_filter] at hr
    exact hdb r hr.1
  | update id c =>
    simp only [applyOp, List.mem_map] at hr
    obtain ⟨x, hx, rfl⟩ := hr
    have hxr := hdb x hx
    by_cases hid : x.ID = id
    · rw [if_pos hid]
      cases c with
      | number_checks_today v => exact hop
      | application_number v => exact hxr
      | status v => exact hxr
      | city_id v => exact hxr
    · rw [if_neg hid]
      exact hxr

theorem applyOps_inRange (ops : List StoreOp) (db : List Request)
    (hdb : ∀ r ∈ db, counterInRange r) (hops : ∀ op ∈ ops, opInRange op) :
    ∀ r ∈ applyOps db ops, counterInRange r := by
  induction ops generalizing db with
  | nil => exact hdb
  | cons op t ih =>
    show ∀ r ∈ applyOps (applyOp db op) t, counterInRange r
    exact ih (applyOp db op)
      (applyOp_inRange db op hdb (hops op (List.mem_cons_self _ _)))
      (fun o ho => hops o (List.mem_cons_of_mem _ ho))

theorem handleCallback_create (newUUID : Nat) (chatID : Int) (data : String) (r : Request)
    (h : StoreOp.create r ∈ (handleCallback newUUID chatID data).ops) :
    r.NumberChecksToday = 0 ∧ r.ApplicationNumber = "0" ∧ r.CityID = 0 ∧
      r.UserID = chatID := by
  unfold handleCallback at h
  by_cases h5 : data = "5"
  · simp [h5] at h
    subst h
    simp
  · by_cases h10 : data = "10"
    · simp [h5, h10] at h
      subst h
      simp
    · simp [h5, h10] at h

theorem handleUpdate_opsInRange (env : Env) (db : List Request) (update : Update) :
    ∀ op ∈ (handleUpdate env db update).ops, opInRange op := by
  intro op hop
  cases update with
  | callbackQuery chatID data =>
    change op ∈ (handleCallback env.newUUID chatID data).ops at hop
    unfold handleCallback at hop
    by_cases h5 : data = "5"
    · simp [h5] at hop
      subst hop
      simp [opInRange, counterInRange]
    · by_cases h10 : data = "10"
      · simp [h5, h10] at hop
        subst hop
        simp [opInRange, counterInRange]
      · simp [h5, h10] at hop
  | command chatID command =>
    change op ∈ (handleCommand db chatID command).ops at hop
    unfold handleCommand at hop
    by_cases hs : command = "start"
    · by_cases hu : (First db chatID).UserID = 0
      · simp [hs, hu] at hop
      · simp [hs, hu] at hop
    · by_cases hr : command = "remove"
      · by_cases hu : (First db chatID).UserID = 0
        · simp [hs, hr, hu] at hop
        · simp [hs, hr, hu] at hop
          subst hop
          simp [opInRange]
      · simp [hs, hr] at hop
  | other => simp [handleUpdate] at hop
  | message chatID text =>
    change op ∈ (handleMessage env db chatID text).ops at hop
    by_cases h5 : (First db chatID).PassportType = "5"
    · rw [handleMessage_five env db chatID text h5] at hop
      by_cases ha : (First db chatID).ApplicationNumber = "0"
      · by_cases h1 : (env.GetStatusFiveYears text).1 = notSavedText
        · rw [handleMessageFive_notSaved _ _ _ h5 ha h1] at hop
          simp at hop
        · by_cases h2 : (env.GetStatusFiveYears text).1 = readyText
          · rw [handleMessageFive_ready _ _ _ h5 ha h2] at hop
            simp at hop
            subst hop
            simp [opInRange]
          · rw [handleMessageFive_enrol _ _ _ h5 ha h1 h2] at hop
            simp at hop
            rcases hop with rfl | rfl | rfl <;> simp [opInRange]
      · rw [handleMessageFive_number_given _ _ _ ha] at hop
        simp at hop
    · rw [handleMessage_not_five env db chatID text h5] at hop
      unfold handleMessageTen at hop
      by_cases h10 : (First db chatID).PassportType = "10"
      · by_cases ha : (First db chatID).ApplicationNumber = "0"
        · simp [h10, ha] at hop
          subst hop
          simp [opInRange]
        · by_cases hc : (First db chatID).CityID = 0
          · by_cases herr : (env.GetCityIdByName text).2 = none
            · simp [h10, ha, hc, herr] at hop
              subst hop
              simp [opInRange]
            · simp [h10, ha, hc, herr] at hop
          · simp [h10, ha, hc] at hop
      · simp [h10] at hop

theorem checkStatusStep_opsInRange (g : String → String × Option String) (r : Request)
    (hr : counterInRange r) : ∀ op ∈ (checkStatusStep g r).ops, opInRange op := by
  intro op hop
  by_cases hs : skipped r = true
  · rw [checkStatusStep_skipped g hs] at hop
    simp at hop
  · have hs' : skipped r = false := by simpa using hs
    by_cases h5 : r.PassportType = "5"
    · by_cases hne : r.Status = (g r.ApplicationNumber).1
      · rcases lt_or_ge r.NumberChecksToday 48 with hn | hn
        · rw [checkStatusStep_counted g hs' h5 hne hn] at hop
          simp at hop
          subst hop
          have := hr.1
          simp only [opInRange]
          omega
        · rw [checkStatusStep_stale g hs' h5 hne hn] at hop
          simp at hop
          subst hop
          simp [opInRange]
      · rw [checkStatusStep_changed g hs' h5 hne] at hop
        simp at hop
        subst hop
        simp [opInRange]
    · rw [checkStatusStep_not_five g h5] at hop
      simp at hop

theorem checkStatusEffects_opsInRange (g : String → String × Option String)
    (l : List Request) (hl : ∀ r ∈ l, counterInRange r) :
    ∀ op ∈ (checkStatusEffects g l).ops, opInRange op := by
  induction l with
  | nil => intro op hop; simp [checkStatusEffects_nil] at hop
  | cons a t ih =>
    intro op hop
    rw [checkStatusEffects_cons, Effects.ops_append, List.mem_append] at hop
    rcases hop with hop | hop
    · exact checkStatusStep_opsInRange g a (hl a (List.mem_cons_self _ _)) op hop
    · exact ih (fun r hr => hl r (List.mem_cons_of_mem _ hr)) op hop

theorem checkStatus_inRange (g : String → String × Option String) (db : List Request)
    (hdb : ∀ r ∈ db, counterInRange r) : ∀ r ∈ checkStatus g db, counterInRange r :=
  applyOps_inRange _ db hdb (checkStatusEffects_opsInRange g db hdb)

theorem step_inRange (db : List Request) (s : Step) (hdb : ∀ r ∈ db, counterInRange r) :
    ∀ r ∈ step db s, counterInRange r := by
  cases s with
  | update env u => exact applyOps_inRange _ db hdb (handleUpdate_opsInRange env db u)
  | tick g => exact checkStatus_inRange g db hdb

theorem run_inRange (steps : List Step) (db : List Request)
    (hdb : ∀ r ∈ db, counterInRange r) : ∀ r ∈ run steps db, counterInRange r := by
  induction steps generalizing db with
  | nil => exact hdb
  | cons s t ih =>
    show ∀ r ∈ run t (step db s), counterInRange r
    exact ih (step db s) (step_inRange db s hdb)

/-- C5: the counter of every row of every table reached from the empty table
by updates and passes of `checkStatus` is between 0 and 48. A row is created
with counter 0; a five-year enrolment whose lookup succeeds writes the
counter 1 last, so the row of the sender has counter 1 afterwards; and a pass
of `checkStatus` over rows with counters between 0 and 48 leaves every
counter between 0 and 48. -/
theorem numberChecksToday_in_range :
    (∀ (steps : List Step) (r : Request), r ∈ run steps [] →
      0 ≤ r.NumberChecksToday ∧ r.NumberChecksToday ≤ 48) ∧
    (∀ (newUUID : Nat) (chatID : Int),
      (handleCallback newUUID chatID "5").ops = [.create (freshRow newUUID chatID "5")] ∧
      (handleCallback newUUID chatID "10").ops = [.create (freshRow newUUID chatID "10")] ∧
      ∀ data r, StoreOp.create r ∈ (handleCallback newUUID chatID data).ops →
        r.NumberChecksToday = 0) ∧
    (∀ (env : Env) (db : List Request) (chatID : Int) (text : String),
      (First db chatID).PassportType = "5" → (First db chatID).ApplicationNumber = "0" →
      (env.GetStatusFiveYears text).2 = none →
      (env.GetStatusFiveYears text).1 ≠ notSavedText →
      (env.GetStatusFiveYears text).1 ≠ readyText →
      (handleUpdate env db (.message chatID text)).ops =
        [.update (First db chatID).ID (.application_number text),
         .update (First db chatID).ID (.status (env.GetStatusFiveYears text).1),
         .update (First db chatID).ID (.number_checks_today 1)] ∧
      ∀ r' ∈ step db (.update env (.message chatID text)),
        r'.ID = (First db chatID).ID → r'.NumberChecksToday = 1) ∧
    (∀ (g : String → String × Option String) (db : List Request),
      (∀ r ∈ db, 0 ≤ r.NumberChecksToday ∧ r.NumberChecksToday ≤ 48) →
      ∀ r' ∈ checkStatus g db, 0 ≤ r'.NumberChecksToday ∧ r'.NumberChecksToday ≤ 48) := by
  refine ⟨?_, ?_, ?_, ?_⟩
  · intro steps r hr
    exact run_inRange steps [] (fun r hr => by cases hr) r hr
  · intro newUUID chatID
    refine ⟨rfl, rfl, ?_⟩
    intro data r h
    exact (handleCallback_create newUUID chatID data r h).1
  · intro env db chatID text h5 ha _ h1 h2
    have hops : (handleUpdate env db (.message chatID text)).ops =
        [.update (First db chatID).ID (.application_number text),
         .update (First db chatID).ID (.status (env.GetStatusFiveYears text).1),
         .update (First db chatID).ID (.number_checks_today 1)] := by
      show (handleMessage env db chatID text).ops = _
      rw [handleMessage_five env db chatID text h5,
        handleMessageFive_enrol _ _ _ h5 ha h1 h2]
    refine ⟨hops, ?_⟩
    intro r' hr' hid
    change r' ∈ applyOps db (handleUpdate env db (.message chatID text)).ops at hr'
    rw [hops, applyOps_of_updates _ (by simp)] at hr'
    obtain ⟨x, _, rfl⟩ := List.mem_map.mp hr'
    rw [foldl_applyOpRow_ID] at hid
    simp [applyOpRow, Column.set, hid]
  · intro g db hdb
    exact checkStatus_inRange g db hdb

/-- C5, witness: the last part of the theorem at a table whose one row has
47 checks and is polled without a change. -/
theorem numberChecksToday_in_range_witness :
    0 ≤ (trackedRow 48).NumberChecksToday ∧ (trackedRow 48).NumberChecksToday ≤ 48 :=
  numberChecksToday_in_range.2.2.2 (answers "В обработке" none) [trackedRow 47]
    (by decide) (trackedRow 48) (by decide)

end KmidChecker
